import Mathlib

/-!
Verification of the LOOT GUI handler's game-data resolution pipeline
(src/gui/handler.cpp, `Handler::GetGameData` and `Handler::OnQuery`).

The pipeline's per-plugin processing, the dirtiness formatter, the
priority serialization and the global-message filtering are embedded
directly from handler.cpp.  Backend helpers that handler.cpp calls but
whose definitions live outside the given sources (the metadata merge,
condition evaluation, install-validity check, the `modulo` helper and
`DoFormIDsOverlap`) are modelled from the specification document, and
each such definition says so in its doc comment.
-/

namespace Loot

/-- Message severity, as in the Message class used by handler.cpp
(`Message::say`, `Message::warn`, `Message::error`). -/
inductive Severity where
  | say
  | warn
  | error
deriving DecidableEq, Repr

/-- A metadata message: severity, text, and an optional condition string.
The condition language itself is opaque; conditions are evaluated by an
external evaluator passed in as a function. -/
structure Message where
  severity : Severity
  text : String
  condition : Option String
deriving DecidableEq, Repr

/-- A Bash Tag attached to a plugin: a name, an addition/removal flag and
an optional condition string. -/
structure Tag where
  name : String
  isAddition : Bool
  condition : Option String
deriving DecidableEq, Repr

/-- A dirtiness record, as read by the formatter loop in handler.cpp
(accessors `ITMs()`, `UDRs()`, `DeletedNavmeshes()`, `CleaningUtility()`):
counts of three defect kinds plus the cleaning tool's name. -/
structure PluginDirtyInfo where
  itm : Nat
  udr : Nat
  nav : Nat
  util : String
deriving DecidableEq, Repr

/-- The per-plugin metadata record (the backend `Plugin` class as used by
handler.cpp): name, signed raw priority, enabled flag, name-reference
sets, tags, ordered message list and dirtiness records.  Set-valued
fields are represented as duplicate-free-by-use lists; the message list
is ordered. -/
structure Plugin where
  name : String
  priority : Int
  enabled : Bool
  loadAfter : List String
  reqs : List String
  incs : List String
  tags : List Tag
  messages : List Message
  dirtyInfo : List PluginDirtyInfo
deriving DecidableEq, Repr

/-- A freshly constructed, name-only record for an unknown plugin: every
field other than the name is at its default. -/
def Plugin.nameOnly (name : String) : Plugin :=
  { name := name
    priority := 0
    enabled := true
    loadAfter := []
    reqs := []
    incs := []
    tags := []
    messages := []
    dirtyInfo := [] }

/-- Order-preserving union used for the set-valued metadata fields:
keeps `a`, then appends the members of `b` not already in `a`. -/
def unionList {α : Type} [DecidableEq α] (a b : List α) : List α :=
  a ++ b.filter (fun x => ! a.contains x)

/-- Modelled from the spec: `base.mergeMetadata(other)` (backend code not
in the given sources).  Scalar fields are overwritten by `other` only
when `other`'s value is non-default (priority default 0, enabled default
true); set fields are unioned; message sequences are concatenated in
order; the receiver's name is kept. -/
def MergeMetadata (base other : Plugin) : Plugin :=
  { name := base.name
    priority := if other.priority = 0 then base.priority else other.priority
    enabled := if other.enabled then base.enabled else false
    loadAfter := unionList base.loadAfter other.loadAfter
    reqs := unionList base.reqs other.reqs
    incs := unionList base.incs other.incs
    tags := unionList base.tags other.tags
    messages := base.messages ++ other.messages
    dirtyInfo := unionList base.dirtyInfo other.dirtyInfo }

/-- Modelled from the spec: `hasNameOnly()` (backend code not in the
given sources) — true iff no field other than the name differs from the
default of a freshly constructed record. -/
def HasNameOnly (p : Plugin) : Bool :=
  p.priority == 0 && p.enabled && p.loadAfter.isEmpty && p.reqs.isEmpty
    && p.incs.isEmpty && p.tags.isEmpty && p.messages.isEmpty && p.dirtyInfo.isEmpty

/-- Modelled from the spec: `findByName` / `MetadataList::FindPlugin`
(backend code not in the given sources) — case-insensitive lookup that
returns a name-only record when the name is absent; it never fails. -/
def FindPlugin (plugins : List Plugin) (name : String) : Plugin :=
  match plugins.find? (fun p => p.name.toLower == name.toLower) with
  | some p => p
  | none => Plugin.nameOnly name

/-- Modelled from the spec: the fixed priority modulus `max_priority`
(a backend constant not in the given sources; the spec gives 100000). -/
def max_priority : Int := 100000

/-- Modelled from the spec: the backend `modulo` helper used at
handler.cpp:419/440/501 — floored modulo, so the result lies in
`[0, divisor)` for a positive divisor and `raw = -1` wraps to
`divisor - 1`.  `Int.emod` has exactly this behaviour for a positive
divisor. -/
def modulo (dividend divisor : Int) : Int :=
  dividend % divisor

/-- The global-priority flag as serialized at handler.cpp:420/441/502:
`abs(priority) >= max_priority`. -/
def isGlobalPriorityFlag (priority : Int) : Bool :=
  decide (max_priority ≤ |priority|)

/-- The dirtiness formatter, translated branch for branch from the loop
body at handler.cpp:475-494: one of eight sentence templates chosen by
which of the three counts are nonzero, with the nonzero counts and the
cleaning tool's name substituted.  The final empty-string branch mirrors
the default-constructed `boost::format` left when no branch fires; the
eight tests are exhaustive, so it is unreachable. -/
def formatDirtyInfo (e : PluginDirtyInfo) : String :=
  if 0 < e.itm ∧ 0 < e.udr ∧ 0 < e.nav then
    "Contains " ++ toString e.itm ++ " ITM records, " ++ toString e.udr
      ++ " UDR records and " ++ toString e.nav ++ " deleted navmeshes. Clean with "
      ++ e.util ++ "."
  else if e.itm = 0 ∧ e.udr = 0 ∧ e.nav = 0 then
    "Clean with " ++ e.util ++ "."
  else if e.itm = 0 ∧ 0 < e.udr ∧ 0 < e.nav then
    "Contains " ++ toString e.udr ++ " UDR records and " ++ toString e.nav
      ++ " deleted navmeshes. Clean with " ++ e.util ++ "."
  else if e.itm = 0 ∧ e.udr = 0 ∧ 0 < e.nav then
    "Contains " ++ toString e.nav ++ " deleted navmeshes. Clean with " ++ e.util ++ "."
  else if e.itm = 0 ∧ 0 < e.udr ∧ e.nav = 0 then
    "Contains " ++ toString e.udr ++ " UDR records. Clean with " ++ e.util ++ "."
  else if 0 < e.itm ∧ e.udr = 0 ∧ 0 < e.nav then
    "Contains " ++ toString e.itm ++ " ITM records and " ++ toString e.nav
      ++ " deleted navmeshes. Clean with " ++ e.util ++ "."
  else if 0 < e.itm ∧ e.udr = 0 ∧ e.nav = 0 then
    "Contains " ++ toString e.itm ++ " ITM records. Clean with " ++ e.util ++ "."
  else if 0 < e.itm ∧ 0 < e.udr ∧ e.nav = 0 then
    "Contains " ++ toString e.itm ++ " ITM records and " ++ toString e.udr
      ++ " UDR records. Clean with " ++ e.util ++ "."
  else
    ""

/-- Template selection written from the specification's eight-row table
(section 4.4), casing on the boolean pattern (itm>0, udr>0, nav>0); used
to state that the source formatter refines the table. -/
def dirtySpecTemplate (e : PluginDirtyInfo) : String :=
  if 0 < e.itm then
    if 0 < e.udr then
      if 0 < e.nav then
        "Contains " ++ toString e.itm ++ " ITM records, " ++ toString e.udr
          ++ " UDR records and " ++ toString e.nav ++ " deleted navmeshes. Clean with "
          ++ e.util ++ "."
      else
        "Contains " ++ toString e.itm ++ " ITM records and " ++ toString e.udr
          ++ " UDR records. Clean with " ++ e.util ++ "."
    else
      if 0 < e.nav then
        "Contains " ++ toString e.itm ++ " ITM records and " ++ toString e.nav
          ++ " deleted navmeshes. Clean with " ++ e.util ++ "."
      else
        "Contains " ++ toString e.itm ++ " ITM records. Clean with " ++ e.util ++ "."
  else
    if 0 < e.udr then
      if 0 < e.nav then
        "Contains " ++ toString e.udr ++ " UDR records and " ++ toString e.nav
          ++ " deleted navmeshes. Clean with " ++ e.util ++ "."
      else
        "Contains " ++ toString e.udr ++ " UDR records. Clean with " ++ e.util ++ "."
    else
      if 0 < e.nav then
        "Contains " ++ toString e.nav ++ " deleted navmeshes. Clean with " ++ e.util ++ "."
      else
        "Clean with " ++ e.util ++ "."

/-- A condition evaluator: maps a condition string to a boolean, or
fails with an error detail.  This is the external Condition Evaluator
collaborator; the pipeline is parametric in it. -/
def CondEval : Type := String → Except String Bool

/-- Modelled from the spec: `Message::EvalCondition` (backend code not
in the given sources) — an unconditioned message is always kept (true,
no possible failure); a conditioned one asks the evaluator, which may
fail. -/
def Message.EvalCondition (ev : CondEval) (m : Message) : Except String Bool :=
  match m.condition with
  | none => Except.ok true
  | some c => ev c

/-- Condition filtering over an ordered message list: conditioned
messages whose condition is false are dropped, unconditioned ones kept;
the first evaluator failure aborts the whole pass. -/
def evalMessageList (ev : CondEval) : List Message → Except String (List Message)
  | [] => Except.ok []
  | m :: rest => do
    let b ← Message.EvalCondition ev m
    let rest2 ← evalMessageList ev rest
    Except.ok (if b then m :: rest2 else rest2)

/-- Condition filtering over a tag list, as for messages. -/
def evalTagList (ev : CondEval) : List Tag → Except String (List Tag)
  | [] => Except.ok []
  | t :: rest => do
    let b ← match t.condition with
      | none => Except.ok true
      | some c => ev c
    let rest2 ← evalTagList ev rest
    Except.ok (if b then t :: rest2 else rest2)

/-- Modelled from the spec: `Plugin::EvalAllConditions` (backend code
not in the given sources) — filters the record's conditioned messages
and tags by their condition's truth value; any single evaluation failure
makes the whole call fail (the caller catches it per plugin). -/
def EvalAllConditions (ev : CondEval) (p : Plugin) : Except String Plugin :=
  match evalMessageList ev p.messages with
  | Except.error e => Except.error e
  | Except.ok ms =>
    match evalTagList ev p.tags with
    | Except.error e => Except.error e
    | Except.ok ts => Except.ok { p with messages := ms, tags := ts }

/-- Modelled from the spec: `Plugin::CheckInstallValidity` (backend code
not in the given sources) — for each requirement missing from the
installed set and each incompatibility present in it, appends an
error-severity message to the record; never fails. -/
def CheckInstallValidity (installed : List String) (p : Plugin) : Plugin :=
  let reqMsgs := (p.reqs.filter (fun r => ! installed.contains r)).map
    (fun r => Message.mk Severity.error
      ("This plugin requires \"" ++ r ++ "\" to be installed, but it is missing.") none)
  let incMsgs := (p.incs.filter (fun i => installed.contains i)).map
    (fun i => Message.mk Severity.error
      ("This plugin is incompatible with \"" ++ i ++ "\", but both are present.") none)
  { p with messages := p.messages ++ reqMsgs ++ incMsgs }

/-- handler.cpp:414-415: copy the live plugin record and merge the
masterlist entry (or a name-only record) onto it. -/
def mlistMerged (mlist : List Plugin) (p : Plugin) : Plugin :=
  MergeMetadata p (FindPlugin mlist p.name)

/-- handler.cpp:431-434: copy the live plugin record, clear its Bash
Tags to prevent false positives, then merge the userlist entry (or a
name-only record) onto it. -/
def ulistMerged (ulist : List Plugin) (p : Plugin) : Plugin :=
  MergeMetadata { p with tags := [] } (FindPlugin ulist p.name)

/-- handler.cpp:453: the userlist-derived copy merged onto the
masterlist-derived copy — the record on which conditions are then
evaluated. -/
def fullMerged (mlist ulist : List Plugin) (p : Plugin) : Plugin :=
  MergeMetadata (mlistMerged mlist p) (ulistMerged ulist p)

/-- handler.cpp:457-463: the record after the single `EvalAllConditions`
call; on failure the catch block leaves the record's content in place
(fail-open) and processing continues. -/
def evalResolved (ev : CondEval) (mlist ulist : List Plugin) (p : Plugin) : Plugin :=
  match EvalAllConditions ev (fullMerged mlist ulist p) with
  | Except.ok q => q
  | Except.error _ => fullMerged mlist ulist p

/-- The error-severity message injected into the global message list at
handler.cpp:462 when a plugin's condition evaluation fails, naming the
plugin and the failure detail. -/
def pluginEvalErrorMessage (name detail : String) : Message :=
  { severity := Severity.error
    text := "\"" ++ name ++ "\" contains a condition that could not be evaluated. Details: "
      ++ detail
    condition := none }

/-- One serialized metadata layer of the plugin node
(handler.cpp:417-448): the userlist layer also serializes the enabled
flag, the masterlist layer does not. -/
structure PluginLayer where
  enabled : Option Bool
  modPriority : Int
  isGlobalPriority : Bool
  after : List String
  req : List String
  inc : List String
  msg : List Message
  tag : List Tag
  dirty : List PluginDirtyInfo
deriving DecidableEq, Repr

/-- Serialize one metadata layer as at handler.cpp:419-426 (masterlist,
`withEnabled = false`) and handler.cpp:439-447 (userlist,
`withEnabled = true`). -/
def layerView (withEnabled : Bool) (q : Plugin) : PluginLayer :=
  { enabled := if withEnabled then some q.enabled else none
    modPriority := modulo q.priority max_priority
    isGlobalPriority := isGlobalPriorityFlag q.priority
    after := q.loadAfter
    req := q.reqs
    inc := q.incs
    msg := q.messages
    tag := q.tags
    dirty := q.dirtyInfo }

/-- The per-plugin node of the serialized snapshot (handler.cpp:399-511).
Fields that only echo live installation state queried from external
collaborators (isActive, isDummy, loadsBSA, crc, version) are omitted;
no claim concerns them. -/
structure PluginView where
  name : String
  masterlist : Option PluginLayer
  userlist : Option PluginLayer
  modPriority : Int
  isGlobalPriority : Bool
  messages : List Message
  tags : List Tag
  isDirty : Bool
deriving DecidableEq, Repr

/-- The result of processing one installed plugin: its serialized node,
the global message list after any injected evaluation-failure message,
and the trace of records passed to `EvalAllConditions` (one snapshot per
call the source makes, in call order). -/
structure ProcessResult where
  view : PluginView
  globalMessages : List Message
  evalTrace : List Plugin
deriving Repr

/-- The per-plugin body of the loop at handler.cpp:399-511, step for
step: merge masterlist onto a copy; serialize that layer when not
name-only; merge userlist onto a tag-cleared copy; serialize that layer
when not name-only; merge the two copies; evaluate all conditions once
(fail-open, injecting one global error message on failure); check
install validity; format every dirtiness record into a warning message;
serialize final priority, flag, messages, tags and the dirty flag. -/
def processPlugin (ev : CondEval) (mlist ulist : List Plugin)
    (installed : List String) (gmsgs : List Message) (p : Plugin) : ProcessResult :=
  let mlistPlugin := mlistMerged mlist p
  let ulistPlugin := ulistMerged ulist p
  let merged := fullMerged mlist ulist p
  let gmsgs2 := match EvalAllConditions ev merged with
    | Except.ok _ => gmsgs
    | Except.error e => gmsgs ++ [pluginEvalErrorMessage merged.name e]
  let validated := CheckInstallValidity installed (evalResolved ev mlist ulist p)
  let dirtyMsgs := validated.dirtyInfo.map
    (fun e => Message.mk Severity.warn (formatDirtyInfo e) none)
  { view :=
      { name := p.name
        masterlist := if HasNameOnly mlistPlugin then none else some (layerView false mlistPlugin)
        userlist := if HasNameOnly ulistPlugin then none else some (layerView true ulistPlugin)
        modPriority := modulo validated.priority max_priority
        isGlobalPriority := isGlobalPriorityFlag validated.priority
        messages := validated.messages ++ dirtyMsgs
        tags := validated.tags
        isDirty := decide (0 < validated.dirtyInfo.length) }
    globalMessages := gmsgs2
    evalTrace := [merged] }

/-- The loop over the installed plugins in load order
(handler.cpp:399-512), threading the global message list through the
per-plugin injections; returns the plugin nodes in order and the global
message list as it stands after the loop. -/
def processInstalled (ev : CondEval) (mlist ulist : List Plugin) (installed : List String) :
    List Plugin → List Message → List PluginView × List Message
  | [], gmsgs => ([], gmsgs)
  | p :: rest, gmsgs =>
    let r := processPlugin ev mlist ulist installed gmsgs p
    let pr := processInstalled ev mlist ulist installed rest r.globalMessages
    (r.view :: pr.1, pr.2)

/-- The error-severity message injected at handler.cpp:529 when a global
message's condition evaluation fails. -/
def globalEvalErrorMessage (detail : String) : Message :=
  { severity := Severity.error
    text := "A global message contains a condition that could not be evaluated. Details: "
      ++ detail
    condition := none }

/-- The global-message filtering loop at handler.cpp:518-530: walk the
list erasing messages whose condition is false; the try block wraps the
WHOLE loop, so the first evaluator failure aborts it — the failing
message and everything after it stay in the list — and the catch
appends one error message at the end. -/
def filterGlobalMessages (ev : CondEval) : List Message → List Message
  | [] => []
  | m :: rest =>
    match Message.EvalCondition ev m with
    | Except.ok true => m :: filterGlobalMessages ev rest
    | Except.ok false => filterGlobalMessages ev rest
    | Except.error e => m :: rest ++ [globalEvalErrorMessage e]

/-- The serialized game snapshot (handler.cpp:389-535).  The masterlist
revision/date and language fields are external collaborator state and
omitted; no claim concerns them. -/
structure GameSnapshot where
  folder : String
  plugins : List PluginView
  globalMessages : List Message
deriving Repr

/-- `Handler::GetGameData` (handler.cpp:349-536) over already-loaded
in-memory collections: process every installed plugin in load order,
then filter the global masterlist messages (which by then include any
per-plugin injected evaluation-failure messages) and serialize. -/
def GetGameData (ev : CondEval) (folder : String) (mlist ulist : List Plugin)
    (mlistMessages : List Message) (installed : List Plugin) : GameSnapshot :=
  let names := installed.map Plugin.name
  let pr := processInstalled ev mlist ulist names installed mlistMessages
  { folder := folder
    plugins := pr.1
    globalMessages := filterGlobalMessages ev pr.2 }

/-- A plugin as held in the game's plugin registry for the conflict
query: its name and its set of content FormIDs (identifiers).  The
registry itself is a list in the map's key order. -/
structure GamePlugin where
  name : String
  formIDs : List Nat
deriving DecidableEq, Repr

/-- Modelled from the spec: `Plugin::DoFormIDsOverlap` (backend code not
in the given sources) — true iff the two identifier sets share at least
one identifier. -/
def DoFormIDsOverlap (a b : GamePlugin) : Bool :=
  a.formIDs.any (fun i => b.formIDs.contains i)

/-- The outcome of a conflict query: the conflicting plugin names in
registry order, plus whether the bulk identifier load was triggered. -/
structure ConflictResult where
  result : List String
  loadTriggered : Bool
deriving DecidableEq, Repr

/-- The `getConflictingPlugins` branch of `Handler::OnQuery`
(handler.cpp:184-208): look the queried name up in the registry; then —
unconditionally — read the FIRST registry entry's FormID set and trigger
the bulk load when it is empty (handler.cpp:191-194); on an empty
registry that read dereferences `begin()` of an empty map, modelled as
the error case.  If the queried name was found, collect every registry
plugin whose FormIDs overlap the target's (the iterator obtained before
the load reads the post-load value, so the target is re-read from the
post-load registry); otherwise the result list stays empty. -/
def getConflictingPlugins (loadAll : List GamePlugin → List GamePlugin)
    (registry : List GamePlugin) (pluginName : String) :
    Except String ConflictResult :=
  let found := registry.find? (fun p => p.name == pluginName)
  match registry.head? with
  | none => Except.error "begin() dereferenced on an empty plugin registry"
  | some first =>
    let doLoad := first.formIDs.isEmpty
    let registry2 := if doLoad then loadAll registry else registry
    let conflicts :=
      match found with
      | none => []
      | some _ =>
        match registry2.find? (fun p => p.name == pluginName) with
        | none => []
        | some target =>
          (registry2.filter (fun c => DoFormIDsOverlap target c)).map GamePlugin.name
    Except.ok { result := conflicts, loadTriggered := doLoad }

/-! ## Concrete instances for counterexamples and witnesses -/

/-- A constantly-true condition evaluator, for concrete runs. -/
def evTrue : CondEval := fun _ => Except.ok true

/-- A concrete evaluator: condition "bad" cannot be evaluated, condition
"no" is false, everything else is true. -/
def evMixed : CondEval := fun c =>
  if c == "bad" then Except.error "boom"
  else if c == "no" then Except.ok false
  else Except.ok true

/-- True when the evaluator settles the message's condition without
failing (used to state the no-failure case of global filtering). -/
def msgEvalOk (ev : CondEval) (m : Message) : Bool :=
  match Message.EvalCondition ev m with
  | Except.ok _ => true
  | Except.error _ => false

/-- True when the message survives condition filtering: its condition is
absent or evaluates to true (a failing condition counts as kept, the
fail-open reading). -/
def msgKeep (ev : CondEval) (m : Message) : Bool :=
  match Message.EvalCondition ev m with
  | Except.ok b => b
  | Except.error _ => true

/-- A global message whose condition cannot be evaluated by `evMixed`. -/
def mBad : Message := { severity := Severity.say, text := "b", condition := some "bad" }

/-- A global message whose condition evaluates false under `evMixed`. -/
def mNo : Message := { severity := Severity.say, text := "n", condition := some "no" }

/-- A live plugin carrying one message whose condition cannot be
evaluated by `evMixed`. -/
def pBad : Plugin :=
  { Plugin.nameOnly "a.esp" with
      messages := [{ severity := Severity.say, text := "hi", condition := some "bad" }] }

/-- A two-plugin registry in which both plugins carry the single shared
identifier 0xABC and nothing else. -/
def registryShared : List GamePlugin :=
  [{ name := "a.esp", formIDs := [2748] }, { name := "b.esp", formIDs := [2748] }]

/-! ## Helper lemmas -/

/-- Union with an empty left operand returns the right operand. -/
theorem unionList_nil_left {α : Type} [DecidableEq α] (b : List α) : unionList [] b = b := by
  simp [unionList]

/-- The snapshot always carries one plugin node per installed plugin, in
order, bearing that plugin's name. -/
theorem processInstalled_names (ev : CondEval) (mlist ulist : List Plugin)
    (installed : List String) :
    ∀ (plugins : List Plugin) (g : List Message),
      ((processInstalled ev mlist ulist installed plugins g).1).map PluginView.name
        = plugins.map Plugin.name
  | [], _ => rfl
  | p :: rest, g => by
    simp [processInstalled, processPlugin,
      processInstalled_names ev mlist ulist installed rest]

/-- When no condition in the list fails to evaluate, the global filter
keeps exactly the messages whose condition is absent or true. -/
theorem filterGlobal_ok (ev : CondEval) :
    ∀ msgs : List Message, (∀ x ∈ msgs, msgEvalOk ev x = true) →
      filterGlobalMessages ev msgs = msgs.filter (msgKeep ev)
  | [], _ => rfl
  | m :: rest, h => by
    have hm := h m (List.mem_cons_self m rest)
    have hrest := filterGlobal_ok ev rest (fun x hx => h x (List.mem_cons_of_mem m hx))
    cases hev : Message.EvalCondition ev m with
    | ok b => cases b <;> simp [filterGlobalMessages, hev, List.filter, msgKeep, hrest]
    | error e => simp [msgEvalOk, hev] at hm

/-- A failing condition aborts the global filter: everything before the
failing message is filtered, the failing message and everything after it
are kept, and one error message is appended. -/
theorem filterGlobal_abort (ev : CondEval) :
    ∀ pre : List Message, (∀ x ∈ pre, msgEvalOk ev x = true) →
      ∀ (m : Message) (rest : List Message) (c e : String), m.condition = some c →
        ev c = Except.error e →
        filterGlobalMessages ev (pre ++ m :: rest)
          = pre.filter (msgKeep ev) ++ (m :: rest ++ [globalEvalErrorMessage e])
  | [], _, m, rest, c, e, hm, he => by
    simp [filterGlobalMessages, Message.EvalCondition, hm, he]
  | x :: pre, h, m, rest, c, e, hm, he => by
    have hx := h x (List.mem_cons_self x pre)
    have hind := filterGlobal_abort ev pre
      (fun y hy => h y (List.mem_cons_of_mem x hy)) m rest c e hm he
    cases hev : Message.EvalCondition ev x with
    | ok b => cases b <;> simp [filterGlobalMessages, hev, List.filter, msgKeep, hind]
    | error e2 => simp [msgEvalOk, hev] at hx

/-- Successful condition evaluation filters messages and tags only; the
dirtiness-record set is untouched. -/
theorem EvalAllConditions_ok_dirtyInfo (ev : CondEval) (p q : Plugin)
    (h : EvalAllConditions ev p = Except.ok q) : q.dirtyInfo = p.dirtyInfo := by
  unfold EvalAllConditions at h
  cases hm : evalMessageList ev p.messages with
  | error e => simp [hm] at h
  | ok ms =>
    cases ht : evalTagList ev p.tags with
    | error e => simp [hm, ht] at h
    | ok ts =>
      simp [hm, ht] at h
      rw [← h]

/-- Whether evaluation succeeds or fails open, the resolved record keeps
the merged record's dirtiness set. -/
theorem evalResolved_dirtyInfo (ev : CondEval) (mlist ulist : List Plugin) (p : Plugin) :
    (evalResolved ev mlist ulist p).dirtyInfo = (fullMerged mlist ulist p).dirtyInfo := by
  unfold evalResolved
  cases h : EvalAllConditions ev (fullMerged mlist ulist p) with
  | ok q => exact EvalAllConditions_ok_dirtyInfo ev _ q h
  | error e => rfl

/-! ## Claim theorems -/

/-- C3: for every signed raw priority `r`, the serialized `modPriority`
is the floored modulo of `r` by `max_priority`, always in
`[0, max_priority)` (so `r = -1` yields `max_priority - 1`), the
serialized `isGlobalPriority` flag is `abs r >= max_priority`, and raw
priority 150000 resolves to `modPriority = 50000` with
`isGlobalPriority = true`; the pipeline serializes exactly these two
functions of the resolved record's priority. -/
theorem priority_codec_correct (r : Int) (ev : CondEval) (mlist ulist : List Plugin)
    (installed : List String) (gmsgs : List Message) (p : Plugin) :
    (0 ≤ modulo r max_priority ∧ modulo r max_priority < max_priority)
    ∧ modulo (-1) max_priority = max_priority - 1
    ∧ (isGlobalPriorityFlag r = true ↔ max_priority ≤ |r|)
    ∧ (modulo 150000 max_priority = 50000 ∧ isGlobalPriorityFlag 150000 = true)
    ∧ (processPlugin ev mlist ulist installed gmsgs p).view.modPriority
        = modulo (CheckInstallValidity installed (evalResolved ev mlist ulist p)).priority
            max_priority
    ∧ (processPlugin ev mlist ulist installed gmsgs p).view.isGlobalPriority
        = isGlobalPriorityFlag
            (CheckInstallValidity installed (evalResolved ev mlist ulist p)).priority := by
  refine ⟨⟨Int.emod_nonneg r (by decide), Int.emod_lt_of_pos r (by decide)⟩,
    by decide, ?_, ⟨by decide, by decide⟩, rfl, rfl⟩
  simp [isGlobalPriorityFlag]

/-- C5: the formatter selects exactly one of the eight templates of the
specification's table, determined solely by the boolean pattern
(itm>0, udr>0, nav>0) with the nonzero counts and the tool name
substituted; in particular (2, 0, 3, "T") renders exactly
"Contains 2 ITM records and 3 deleted navmeshes. Clean with T." and
(0, 0, 0, "T") renders "Clean with T.". -/
theorem dirtiness_formatter_correct (e : PluginDirtyInfo) :
    formatDirtyInfo e = dirtySpecTemplate e
    ∧ formatDirtyInfo ⟨2, 0, 3, "T"⟩
        = "Contains 2 ITM records and 3 deleted navmeshes. Clean with T."
    ∧ formatDirtyInfo ⟨0, 0, 0, "T"⟩ = "Clean with T." := by
  refine ⟨?_, by decide, by decide⟩
  rcases Nat.eq_zero_or_pos e.itm with hi | hi <;>
    rcases Nat.eq_zero_or_pos e.udr with hu | hu <;>
      rcases Nat.eq_zero_or_pos e.nav with hn | hn <;>
        simp_all [formatDirtyInfo, dirtySpecTemplate, Nat.pos_iff_ne_zero]

/-- C1 counterexample: on a concrete plugin with no masterlist or
userlist entry, the per-plugin pipeline invokes `EvalAllConditions`
exactly once, not twice as claimed: the evaluation-call trace has
length 1. -/
theorem eval_twice_counterexample :
    (processPlugin evTrue [] [] [] [] (Plugin.nameOnly "a.esp")).evalTrace.length = 1
    ∧ ¬ (processPlugin evTrue [] [] [] [] (Plugin.nameOnly "a.esp")).evalTrace.length = 2 := by
  exact ⟨rfl, by decide⟩

/-- C1 amended: for every installed plugin, conditions are evaluated
exactly once, and the single record passed to the evaluator is the copy
onto which both the masterlist record and the userlist-derived copy have
already been merged — no evaluation precedes the userlist merge. -/
theorem eval_once_after_merge (ev : CondEval) (mlist ulist : List Plugin)
    (installed : List String) (gmsgs : List Message) (p : Plugin) :
    (processPlugin ev mlist ulist installed gmsgs p).evalTrace = [fullMerged mlist ulist p]
    ∧ fullMerged mlist ulist p
        = MergeMetadata (mlistMerged mlist p) (ulistMerged ulist p) := ⟨rfl, rfl⟩

/-- C8: the copy onto which the userlist record is merged has its tag
set cleared before the merge, so its tag set after the merge — and hence
the serialized userlist-layer tag field, when that layer is emitted —
is exactly the tag set of the userlist record, never tags inherited from
the live plugin or the masterlist layer. -/
theorem userlist_tags_only_from_userlist (ev : CondEval) (mlist ulist : List Plugin)
    (installed : List String) (gmsgs : List Message) (p : Plugin) :
    (ulistMerged ulist p).tags = (FindPlugin ulist p.name).tags
    ∧ ((processPlugin ev mlist ulist installed gmsgs p).view.userlist).map PluginLayer.tag
        = if HasNameOnly (ulistMerged ulist p) then none
          else some ((FindPlugin ulist p.name).tags) := by
  have h : (ulistMerged ulist p).tags = (FindPlugin ulist p.name).tags := by
    simp [ulistMerged, MergeMetadata, unionList_nil_left]
  refine ⟨h, ?_⟩
  by_cases hn : HasNameOnly (ulistMerged ulist p) = true <;>
    simp [processPlugin, layerView, hn, h]

/-- C6: every formatted dirtiness string is appended to the plugin's
serialized message sequence as a warning-severity message, and the
serialized `isDirty` flag is true exactly when the resolved record's
dirtiness-record set is non-empty, independent of which template fired
(the count, not the counts inside the records, decides the flag). -/
theorem dirty_messages_and_flag (ev : CondEval) (mlist ulist : List Plugin)
    (installed : List String) (gmsgs : List Message) (p : Plugin) :
    (processPlugin ev mlist ulist installed gmsgs p).view.messages
      = (CheckInstallValidity installed (evalResolved ev mlist ulist p)).messages
        ++ (CheckInstallValidity installed (evalResolved ev mlist ulist p)).dirtyInfo.map
            (fun d => Message.mk Severity.warn (formatDirtyInfo d) none)
    ∧ ((processPlugin ev mlist ulist installed gmsgs p).view.isDirty = true
        ↔ (CheckInstallValidity installed (evalResolved ev mlist ulist p)).dirtyInfo ≠ [])
    ∧ (CheckInstallValidity installed (evalResolved ev mlist ulist p)).dirtyInfo
        = (fullMerged mlist ulist p).dirtyInfo := by
  refine ⟨rfl, ?_, ?_⟩
  · simp [processPlugin, List.length_pos]
  · exact evalResolved_dirtyInfo ev mlist ulist p

/-- C2: when a plugin's condition evaluation fails, the pipeline does
not abort: exactly one error-severity message naming the plugin and the
failure detail is appended to the global message list, the record's
governed content (tags, messages, dirtiness records) stays present
fail-open, and the snapshot still carries one node per installed plugin
in order. -/
theorem eval_failure_fail_open (ev : CondEval) (mlist ulist : List Plugin)
    (installed : List String) (gmsgs : List Message) (p : Plugin) (e : String)
    (hfail : EvalAllConditions ev (fullMerged mlist ulist p) = Except.error e) :
    (processPlugin ev mlist ulist installed gmsgs p).globalMessages
        = gmsgs ++ [pluginEvalErrorMessage (fullMerged mlist ulist p).name e]
    ∧ evalResolved ev mlist ulist p = fullMerged mlist ulist p
    ∧ (processPlugin ev mlist ulist installed gmsgs p).view.tags
        = (fullMerged mlist ulist p).tags
    ∧ (processPlugin ev mlist ulist installed gmsgs p).view.messages
        = (CheckInstallValidity installed (fullMerged mlist ulist p)).messages
          ++ (fullMerged mlist ulist p).dirtyInfo.map
              (fun d => Message.mk Severity.warn (formatDirtyInfo d) none)
    ∧ (∀ (plugins : List Plugin) (g : List Message),
        ((processInstalled ev mlist ulist installed plugins g).1).map PluginView.name
          = plugins.map Plugin.name) := by
  have hres : evalResolved ev mlist ulist p = fullMerged mlist ulist p := by
    simp [evalResolved, hfail]
  refine ⟨?_, hres, ?_, ?_, processInstalled_names ev mlist ulist installed⟩
  · simp [processPlugin, hfail]
  · simp [processPlugin, CheckInstallValidity, hres]
  · simp [processPlugin, CheckInstallValidity, hres]

/-- C2 witness: a concrete run in which the single conditioned message
of `pBad` fails to evaluate under `evMixed`. -/
theorem eval_failure_fail_open_witness :
    (processPlugin evMixed [] [] [] [] pBad).globalMessages
        = [] ++ [pluginEvalErrorMessage (fullMerged [] [] pBad).name "boom"]
    ∧ evalResolved evMixed [] [] pBad = fullMerged [] [] pBad
    ∧ (processPlugin evMixed [] [] [] [] pBad).view.tags = (fullMerged [] [] pBad).tags
    ∧ (processPlugin evMixed [] [] [] [] pBad).view.messages
        = (CheckInstallValidity [] (fullMerged [] [] pBad)).messages
          ++ (fullMerged [] [] pBad).dirtyInfo.map
              (fun d => Message.mk Severity.warn (formatDirtyInfo d) none)
    ∧ (∀ (plugins : List Plugin) (g : List Message),
        ((processInstalled evMixed [] [] [] plugins g).1).map PluginView.name
          = plugins.map Plugin.name) :=
  eval_failure_fail_open evMixed [] [] [] [] pBad "boom" rfl

/-- C7 counterexample: with the global messages `[mBad, mNo]`, `mBad`'s
condition fails to evaluate and aborts the filtering loop, so `mNo` —
whose condition evaluates to false — is still present in the snapshot's
global message list after the pipeline completes, refuting that every
false-conditioned global message is removed. -/
theorem global_filter_counterexample :
    (GetGameData evMixed "game" [] [] [mBad, mNo] []).globalMessages
        = [mBad, mNo, globalEvalErrorMessage "boom"]
    ∧ mNo.condition = some "no"
    ∧ evMixed "no" = Except.ok false
    ∧ mNo ∈ (GetGameData evMixed "game" [] [] [mBad, mNo] []).globalMessages := by
  exact ⟨rfl, rfl, rfl, by decide⟩

/-- C7 amended: when no global message's condition fails to evaluate,
the pipeline removes exactly the messages whose condition is false and
keeps every unconditioned one; but an evaluation failure aborts the
filtering loop — the failing message and every message after it are kept
unfiltered — while one error message is injected at the end; the
snapshot's global message list is the filtered list. -/
theorem global_filter_amended (ev : CondEval) (pre rest : List Message) (m : Message)
    (c e : String)
    (hpre : ∀ x ∈ pre, msgEvalOk ev x = true)
    (hm : m.condition = some c) (he : ev c = Except.error e) :
    (∀ msgs : List Message, (∀ x ∈ msgs, msgEvalOk ev x = true) →
        filterGlobalMessages ev msgs = msgs.filter (msgKeep ev))
    ∧ filterGlobalMessages ev (pre ++ m :: rest)
        = pre.filter (msgKeep ev) ++ (m :: rest ++ [globalEvalErrorMessage e])
    ∧ (∀ (folder : String) (mlist ulist : List Plugin) (mmsgs : List Message)
          (installed : List Plugin),
        (GetGameData ev folder mlist ulist mmsgs installed).globalMessages
          = filterGlobalMessages ev
              (processInstalled ev mlist ulist (installed.map Plugin.name)
                installed mmsgs).2) :=
  ⟨filterGlobal_ok ev, filterGlobal_abort ev pre hpre m rest c e hm he,
    fun _ _ _ _ _ => rfl⟩

/-- C7 witness: the amended behaviour at the concrete run of the
counterexample's inputs. -/
theorem global_filter_amended_witness :
    (∀ msgs : List Message, (∀ x ∈ msgs, msgEvalOk evMixed x = true) →
        filterGlobalMessages evMixed msgs = msgs.filter (msgKeep evMixed))
    ∧ filterGlobalMessages evMixed ([] ++ mBad :: [mNo])
        = List.filter (msgKeep evMixed) [] ++ (mBad :: [mNo] ++ [globalEvalErrorMessage "boom"])
    ∧ (∀ (folder : String) (mlist ulist : List Plugin) (mmsgs : List Message)
          (installed : List Plugin),
        (GetGameData evMixed folder mlist ulist mmsgs installed).globalMessages
          = filterGlobalMessages evMixed
              (processInstalled evMixed mlist ulist (installed.map Plugin.name)
                installed mmsgs).2) :=
  global_filter_amended evMixed [] [mNo] mBad "bad" "boom"
    (by intro x hx; cases hx) rfl rfl

/-- C4 counterexample: in the two-plugin registry whose plugins share
identifier 0xABC and nothing else, querying "a.esp" returns a list that
contains both plugins — including "a.esp" itself, refuting that the
queried plugin never appears in its own conflict list.  (The loop at
handler.cpp:198-203 never skips the queried plugin, and a non-empty
identifier set overlaps itself.) -/
theorem conflict_self_counterexample :
    getConflictingPlugins id registryShared "a.esp"
      = Except.ok { result := ["a.esp", "b.esp"], loadTriggered := false }
    ∧ "a.esp" ∈ ["a.esp", "b.esp"] := ⟨rfl, by decide⟩

/-- C4 amended: with identifier sets populated (the first registry
entry's set is non-empty, so no bulk load fires) and the queried name
present, the result is exactly the registry plugins, in registry order,
whose identifier set shares at least one identifier with the target's —
so two plugins sharing one identifier appear in each other's result, and
the queried plugin itself appears in its own result whenever its
identifier set is non-empty (it shares every identifier with itself). -/
theorem conflict_query_amended (loadAll : List GamePlugin → List GamePlugin)
    (registry : List GamePlugin) (pluginName : String) (first target : GamePlugin)
    (hfirst : registry.head? = some first) (hne : first.formIDs ≠ [])
    (htarget : registry.find? (fun p => p.name == pluginName) = some target) :
    getConflictingPlugins loadAll registry pluginName
      = Except.ok
          { result := (registry.filter (fun c => DoFormIDsOverlap target c)).map GamePlugin.name
            loadTriggered := false }
    ∧ (∀ q ∈ registry, (∃ i, i ∈ target.formIDs ∧ i ∈ q.formIDs) →
        q.name ∈ (registry.filter (fun c => DoFormIDsOverlap target c)).map GamePlugin.name)
    ∧ (target.formIDs ≠ [] →
        pluginName
          ∈ (registry.filter (fun c => DoFormIDsOverlap target c)).map GamePlugin.name) := by
  have hempty : first.formIDs.isEmpty = false := by
    cases hh : first.formIDs.isEmpty
    · rfl
    · exact absurd (List.isEmpty_iff.mp hh) hne
  have hover : ∀ q : GamePlugin, (∃ i, i ∈ target.formIDs ∧ i ∈ q.formIDs) →
      DoFormIDsOverlap target q = true := by
    rintro q ⟨i, hit, hiq⟩
    simp only [DoFormIDsOverlap, List.any_eq_true]
    exact ⟨i, hit, by simpa using hiq⟩
  refine ⟨?_, ?_, ?_⟩
  · simp [getConflictingPlugins, hfirst, htarget, hempty]
  · intro q hq hshare
    exact List.mem_map.mpr ⟨q, List.mem_filter.mpr ⟨hq, hover q hshare⟩, rfl⟩
  · intro hnt
    have hmem : target ∈ registry := List.mem_of_find?_eq_some htarget
    have hname : target.name = pluginName := by
      have hb := List.find?_some htarget
      simpa using hb
    obtain ⟨i, hi⟩ := List.exists_mem_of_ne_nil target.formIDs hnt
    have hself : DoFormIDsOverlap target target = true := hover target ⟨i, hi, hi⟩
    exact hname ▸ List.mem_map.mpr ⟨target, List.mem_filter.mpr ⟨hmem, hself⟩, rfl⟩

/-- C4 witness: the amended behaviour at the shared-identifier registry,
querying "a.esp". -/
theorem conflict_query_amended_witness :
    getConflictingPlugins id registryShared "a.esp"
      = Except.ok
          { result := (registryShared.filter
              (fun c => DoFormIDsOverlap { name := "a.esp", formIDs := [2748] } c)).map
                GamePlugin.name
            loadTriggered := false }
    ∧ (∀ q ∈ registryShared,
        (∃ i, i ∈ (GamePlugin.mk "a.esp" [2748]).formIDs ∧ i ∈ q.formIDs) →
        q.name ∈ (registryShared.filter
            (fun c => DoFormIDsOverlap { name := "a.esp", formIDs := [2748] } c)).map
              GamePlugin.name)
    ∧ ((GamePlugin.mk "a.esp" [2748]).formIDs ≠ [] →
        "a.esp" ∈ (registryShared.filter
            (fun c => DoFormIDsOverlap { name := "a.esp", formIDs := [2748] } c)).map
              GamePlugin.name) :=
  conflict_query_amended id registryShared "a.esp"
    { name := "a.esp", formIDs := [2748] } { name := "a.esp", formIDs := [2748] }
    rfl (by decide) rfl

/-- C9: when the queried name is absent from a non-empty registry, the
query still succeeds with an empty conflict list — absence is not an
error — though the bulk identifier load is still triggered whenever the
first registry entry's identifier set is empty. -/
theorem conflict_query_absent_name (loadAll : List GamePlugin → List GamePlugin)
    (registry : List GamePlugin) (pluginName : String) (first : GamePlugin)
    (hfirst : registry.head? = some first)
    (habsent : registry.find? (fun p => p.name == pluginName) = none) :
    getConflictingPlugins loadAll registry pluginName
      = Except.ok { result := [], loadTriggered := first.formIDs.isEmpty } := by
  simp [getConflictingPlugins, hfirst, habsent]

/-- C9 witness: querying a name absent from a one-plugin registry whose
only entry has no identifiers loaded succeeds with an empty list and
triggers the bulk load. -/
theorem conflict_query_absent_name_witness :
    getConflictingPlugins id [{ name := "a.esp", formIDs := [] }] "zzz.esp"
      = Except.ok
          { result := []
            loadTriggered := (GamePlugin.mk "a.esp" []).formIDs.isEmpty } :=
  conflict_query_absent_name id [{ name := "a.esp", formIDs := [] }] "zzz.esp"
    { name := "a.esp", formIDs := [] } rfl rfl

/-- C10: the conflict query reads the first registry entry's identifier
set unconditionally — on an empty registry the modelled access is the
error case — but under the precondition that the registry is non-empty
the access is safe (the query always succeeds), and the bulk-load
trigger is decided by the FIRST registry entry in map order, not by the
queried plugin. -/
theorem conflict_first_entry_probe (loadAll : List GamePlugin → List GamePlugin)
    (pluginName : String) :
    getConflictingPlugins loadAll [] pluginName
      = Except.error "begin() dereferenced on an empty plugin registry"
    ∧ ∀ (registry : List GamePlugin) (first : GamePlugin), registry.head? = some first →
        ∃ r : ConflictResult,
          getConflictingPlugins loadAll registry pluginName = Except.ok r
          ∧ r.loadTriggered = first.formIDs.isEmpty := by
  refine ⟨rfl, ?_⟩
  intro registry first hfirst
  cases registry with
  | nil => simp at hfirst
  | cons a tail =>
    simp only [List.head?_cons, Option.some_inj] at hfirst
    subst hfirst
    exact ⟨_, rfl, rfl⟩

end Loot
